import Mathlib

/-!
Verification of the flytekit excerpt consisting of
`plugins/flytekit-bigquery/flytekitplugins/bigquery/agent.py` (the BigQuery
external job agent: `create` / `get` / `delete`) and
`flytekit/clis/sdk_in_container/build.py` (the `pyflyte build` click commands).

Python byte strings are modelled as `List Nat` (each element a byte value),
Python unicode strings as Lean `String`, fallible code as `Option`/`Except`,
and the external BigQuery service as an explicit association list from job id
to job record.  Library calls the source makes (`msgpack.packb`/`unpackb`,
`json.loads`, `bytes.decode`, `os.path.relpath`, `pathlib.Path.glob`) are
translated to executable Lean definitions below.
-/

namespace BigQueryAgent

/-- Decode a UTF-8 byte sequence into its list of unicode code points,
returning `none` on malformed input.  This models Python's strict
`bytes.decode("utf-8")` (and the UTF-8 validation msgpack performs when
unpacking `str` values): a continuation byte cannot lead a character, overlong
two-byte forms (leads 0xC0/0xC1), surrogate code points and values above
0x10FFFF are rejected. -/
def utf8Decode : List Nat → Option (List Nat)
  | [] => some []
  | b :: rest =>
    if b ≤ 0x7f then (utf8Decode rest).map (fun cs => b :: cs)
    else if b < 0xc2 then none
    else if b ≤ 0xdf then
      match rest with
      | c1 :: rest2 =>
        if 0x80 ≤ c1 ∧ c1 ≤ 0xbf then
          (utf8Decode rest2).map (fun cs => ((b - 0xc0) * 64 + (c1 - 0x80)) :: cs)
        else none
      | [] => none
    else if b ≤ 0xef then
      match rest with
      | c1 :: c2 :: rest2 =>
        if (0x80 ≤ c1 ∧ c1 ≤ 0xbf) ∧ (0x80 ≤ c2 ∧ c2 ≤ 0xbf) then
          let cp := (b - 0xe0) * 4096 + (c1 - 0x80) * 64 + (c2 - 0x80)
          if cp < 0x800 ∨ (0xd800 ≤ cp ∧ cp ≤ 0xdfff) then none
          else (utf8Decode rest2).map (fun cs => cp :: cs)
        else none
      | _ => none
    else if b ≤ 0xf4 then
      match rest with
      | c1 :: c2 :: c3 :: rest2 =>
        if (0x80 ≤ c1 ∧ c1 ≤ 0xbf) ∧ (0x80 ≤ c2 ∧ c2 ≤ 0xbf) ∧ (0x80 ≤ c3 ∧ c3 ≤ 0xbf) then
          let cp := (b - 0xf0) * 262144 + (c1 - 0x80) * 4096 + (c2 - 0x80) * 64 + (c3 - 0x80)
          if cp < 0x10000 ∨ 0x10ffff < cp then none
          else (utf8Decode rest2).map (fun cs => cp :: cs)
        else none
      | _ => none
    else none

/-- A byte sequence is valid UTF-8 when the strict decoder accepts it. -/
def validUtf8 (bs : List Nat) : Bool := (utf8Decode bs).isSome

/-- A decoded Python runtime value, as produced by `msgpack.unpackb` or
`json.loads`.  Strings carry their UTF-8 bytes.  `pyFloat` carries the raw
form the float was decoded from (IEEE bytes for msgpack, the numeric token's
characters for JSON); nothing in the excerpt inspects a float beyond its
runtime type, so the payload stays opaque.  `pyExt` is msgpack's ExtType. -/
inductive PyVal
  | pyNone
  | pyBool (b : Bool)
  | pyInt (n : Int)
  | pyFloat (raw : List Nat)
  | pyStr (utf8 : List Nat)
  | pyBytes (bs : List Nat)
  | pyExt (type_ : Int) (data : List Nat)
  | pyList (items : List PyVal)
  | pyDict (entries : List (PyVal × PyVal))

/-- The dataclass `Metadata` of agent.py (`job_id: str`).  The annotation is
not enforced at runtime: building the record from decoded keyword arguments
stores whatever value the codec produced, so the field holds a `PyVal`
(create itself always stores a string). -/
structure Metadata where
  job_id : PyVal

/-- The UTF-8 bytes of the string "job_id", the single key of
`asdict(Metadata(...))`. -/
def jobIdKeyBytes : List Nat := [106, 111, 98, 95, 105, 100]

/-- msgpack encoding of a `str` given its UTF-8 payload bytes: fixstr for
lengths up to 31, then str8 / str16 / str32 headers, as produced by
`msgpack.packb`. -/
def packStr (s : List Nat) : List Nat :=
  let n := s.length
  if n ≤ 31 then (0xa0 + n) :: s
  else if n < 256 then 0xd9 :: n :: s
  else if n < 65536 then 0xda :: (n / 256) :: (n % 256) :: s
  else 0xdb :: (n / 16777216) :: (n / 65536 % 256) :: (n / 256 % 256) :: (n % 256) :: s

/-- `msgpack.packb(asdict(Metadata(job_id=...)))` from `create` (line 67):
a one-entry fixmap (0x81) holding key "job_id" and the job id string, whose
UTF-8 bytes are given (create always stores `str(query_job.job_id)`). -/
def packbMetadata (job_id : List Nat) : List Nat :=
  0x81 :: (packStr jobIdKeyBytes ++ packStr job_id)

/-- Read exactly `n` bytes from the front of the input. -/
def readN (n : Nat) (bs : List Nat) : Option (List Nat × List Nat) :=
  if n ≤ bs.length then some (bs.take n, bs.drop n) else none

/-- Big-endian value of a byte sequence. -/
def beNat (bs : List Nat) : Nat := bs.foldl (fun acc b => acc * 256 + b) 0

/-- Two's-complement reading of an unsigned `width`-bit value. -/
def signed (width n : Nat) : Int :=
  if n < 2 ^ (width - 1) then Int.ofNat n else Int.ofNat n - Int.ofNat (2 ^ width)

/-- A msgpack `str` payload of `n` bytes: msgpack (`raw=False`) decodes it
with strict UTF-8, failing on invalid bytes. -/
def parseMsgStr (n : Nat) (bs : List Nat) : Option (PyVal × List Nat) :=
  match readN n bs with
  | none => none
  | some (payload, rest) =>
    if validUtf8 payload then some (.pyStr payload, rest) else none

/-- A msgpack `bin` payload of `n` bytes (a Python `bytes` value). -/
def parseMsgBin (n : Nat) (bs : List Nat) : Option (PyVal × List Nat) :=
  match readN n bs with
  | none => none
  | some (payload, rest) => some (.pyBytes payload, rest)

/-- A msgpack ext value: one type byte then `n` data bytes (layout shared by
ext8/16/32 after their length field and by the fixext forms). -/
def parseMsgExt (n : Nat) (bs : List Nat) : Option (PyVal × List Nat) :=
  match bs with
  | t :: rest =>
    match readN n rest with
    | none => none
    | some (payload, rest2) => some (.pyExt (signed 8 t) payload, rest2)
  | [] => none

/-- Regroup the flat list of `2*n` parsed values of a msgpack map into its
`n` key-value pairs. -/
def toPairs : List PyVal → Option (List (PyVal × PyVal))
  | [] => some []
  | k :: v :: rest =>
    match toPairs rest with
    | none => none
    | some ps => some ((k, v) :: ps)
  | _ => none

/-- `msgpack.unpackb`'s default `strict_map_key=True`: map keys must be str
or bytes values; any other key type aborts unpacking. -/
def strictMapKey : PyVal × PyVal → Bool
  | (.pyStr _, _) => true
  | (.pyBytes _, _) => true
  | _ => false

mutual

/-- One msgpack value (`msgpack.unpackb`'s default configuration), decoded
into the Python value it produces.  `fuel` only bounds the recursion depth;
every recursive step follows at least one consumed input byte, so the fuel
budget `unpackb` supplies can never be exhausted first.  The disjoint header
ranges are tested with the str family first; the order is immaterial. -/
def parseMsgOne : Nat → List Nat → Option (PyVal × List Nat)
  | 0, _ => none
  | _ + 1, [] => none
  | fuel + 1, b :: rest =>
    if 0xa0 ≤ b ∧ b ≤ 0xbf then parseMsgStr (b - 0xa0) rest
    else if b = 0xd9 then
      match rest with
      | n :: r => parseMsgStr n r
      | [] => none
    else if b = 0xda then
      match rest with
      | n1 :: n2 :: r => parseMsgStr (n1 * 256 + n2) r
      | _ => none
    else if b = 0xdb then
      match rest with
      | n1 :: n2 :: n3 :: n4 :: r => parseMsgStr (((n1 * 256 + n2) * 256 + n3) * 256 + n4) r
      | _ => none
    else if b ≤ 0x7f then some (.pyInt (Int.ofNat b), rest)
    else if b ≤ 0x8f then
      match parseMsgSeq fuel (2 * (b - 0x80)) rest with
      | none => none
      | some (kvs, r) =>
        match toPairs kvs with
        | none => none
        | some es => if es.all strictMapKey then some (.pyDict es, r) else none
    else if b ≤ 0x9f then
      match parseMsgSeq fuel (b - 0x90) rest with
      | none => none
      | some (vs, r) => some (.pyList vs, r)
    else if b = 0xc0 then some (.pyNone, rest)
    else if b = 0xc2 then some (.pyBool false, rest)
    else if b = 0xc3 then some (.pyBool true, rest)
    else if b = 0xc4 then
      match rest with
      | n :: r => parseMsgBin n r
      | [] => none
    else if b = 0xc5 then
      match rest with
      | n1 :: n2 :: r => parseMsgBin (n1 * 256 + n2) r
      | _ => none
    else if b = 0xc6 then
      match rest with
      | n1 :: n2 :: n3 :: n4 :: r => parseMsgBin (((n1 * 256 + n2) * 256 + n3) * 256 + n4) r
      | _ => none
    else if b = 0xc7 then
      match rest with
      | n :: r => parseMsgExt n r
      | [] => none
    else if b = 0xc8 then
      match rest with
      | n1 :: n2 :: r => parseMsgExt (n1 * 256 + n2) r
      | _ => none
    else if b = 0xc9 then
      match rest with
      | n1 :: n2 :: n3 :: n4 :: r => parseMsgExt (((n1 * 256 + n2) * 256 + n3) * 256 + n4) r
      | _ => none
    else if b = 0xca then
      match readN 4 rest with
      | none => none
      | some (p, r) => some (.pyFloat p, r)
    else if b = 0xcb then
      match readN 8 rest with
      | none => none
      | some (p, r) => some (.pyFloat p, r)
    else if b = 0xcc then
      match rest with
      | n :: r => some (.pyInt (Int.ofNat n), r)
      | [] => none
    else if b = 0xcd then
      match readN 2 rest with
      | none => none
      | some (p, r) => some (.pyInt (Int.ofNat (beNat p)), r)
    else if b = 0xce then
      match readN 4 rest with
      | none => none
      | some (p, r) => some (.pyInt (Int.ofNat (beNat p)), r)
    else if b = 0xcf then
      match readN 8 rest with
      | none => none
      | some (p, r) => some (.pyInt (Int.ofNat (beNat p)), r)
    else if b = 0xd0 then
      match rest with
      | n :: r => some (.pyInt (signed 8 n), r)
      | [] => none
    else if b = 0xd1 then
      match readN 2 rest with
      | none => none
      | some (p, r) => some (.pyInt (signed 16 (beNat p)), r)
    else if b = 0xd2 then
      match readN 4 rest with
      | none => none
      | some (p, r) => some (.pyInt (signed 32 (beNat p)), r)
    else if b = 0xd3 then
      match readN 8 rest with
      | none => none
      | some (p, r) => some (.pyInt (signed 64 (beNat p)), r)
    else if b = 0xd4 then parseMsgExt 1 rest
    else if b = 0xd5 then parseMsgExt 2 rest
    else if b = 0xd6 then parseMsgExt 4 rest
    else if b = 0xd7 then parseMsgExt 8 rest
    else if b = 0xd8 then parseMsgExt 16 rest
    else if b = 0xdc then
      match rest with
      | n1 :: n2 :: r =>
        match parseMsgSeq fuel (n1 * 256 + n2) r with
        | none => none
        | some (vs, r2) => some (.pyList vs, r2)
      | _ => none
    else if b = 0xdd then
      match rest with
      | n1 :: n2 :: n3 :: n4 :: r =>
        match parseMsgSeq fuel (((n1 * 256 + n2) * 256 + n3) * 256 + n4) r with
        | none => none
        | some (vs, r2) => some (.pyList vs, r2)
      | _ => none
    else if b = 0xde then
      match rest with
      | n1 :: n2 :: r =>
        match parseMsgSeq fuel (2 * (n1 * 256 + n2)) r with
        | none => none
        | some (kvs, r2) =>
          match toPairs kvs with
          | none => none
          | some es => if es.all strictMapKey then some (.pyDict es, r2) else none
      | _ => none
    else if b = 0xdf then
      match rest with
      | n1 :: n2 :: n3 :: n4 :: r =>
        match parseMsgSeq fuel (2 * (((n1 * 256 + n2) * 256 + n3) * 256 + n4)) r with
        | none => none
        | some (kvs, r2) =>
          match toPairs kvs with
          | none => none
          | some es => if es.all strictMapKey then some (.pyDict es, r2) else none
      | _ => none
    else if 0xe0 ≤ b ∧ b ≤ 0xff then some (.pyInt (Int.ofNat b - 256), rest)
    else none

/-- `count` consecutive msgpack values (the contents of an array, or the
interleaved keys and values of a map). -/
def parseMsgSeq : Nat → Nat → List Nat → Option (List PyVal × List Nat)
  | _, 0, bs => some ([], bs)
  | 0, _ + 1, _ => none
  | fuel + 1, count + 1, bs =>
    match parseMsgOne fuel bs with
    | none => none
    | some (v, r) =>
      match parseMsgSeq fuel count r with
      | none => none
      | some (vs, r2) => some (v :: vs, r2)

end

/-- `msgpack.unpackb(resource_meta)`: one complete value, with trailing bytes
raising ExtraData.  The fuel `2*length + 2` strictly dominates the recursion
depth (each descent or sibling step follows at least one consumed byte), so
fuel exhaustion never decides the outcome. -/
def unpackb (bs : List Nat) : Option PyVal :=
  match parseMsgOne (2 * bs.length + 2) bs with
  | some (v, []) => some v
  | _ => none

/-- A keyword of a `**` expansion equal to the string "job_id". -/
def isJobIdKey : PyVal → Bool
  | .pyStr bs => bs == jobIdKeyBytes
  | _ => false

/-- `Metadata(**d)` on a decoded value: the value must be a dict (the `**`
expansion raises on anything else), every key must be the string "job_id"
(another string key is an unexpected keyword argument, a bytes or other key
raises "keywords must be strings"), and at least one entry must be present
(the required `job_id` argument).  Duplicate keys follow dict semantics, the
last value winning.  The stored value itself is NOT checked against the
`str` annotation: a dataclass performs no runtime type validation, so a map
like one pairing "job_id" with an integer still builds a Metadata record. -/
def metadataFromKwargs : PyVal → Option Metadata
  | .pyDict entries =>
    if entries.all (fun e => isJobIdKey e.1) then
      match entries.getLast? with
      | some (_, v) => some ⟨v⟩
      | none => none
    else none
  | _ => none

/-- `Metadata(**msgpack.unpackb(resource_meta))` from `get` (line 71). -/
def unpackbMetadata (bs : List Nat) : Option Metadata :=
  match unpackb bs with
  | none => none
  | some v => metadataFromKwargs v

/-- The generic agent states of the protocol. -/
inductive AgentState
  | QUEUED
  | RUNNING
  | SUCCEEDED
  | FAILED
deriving DecidableEq

/-- Modelled from the spec: the State Translator's lookup table
(`convert_to_flyte_state` lives in `flytekit.extend.backend.base_agent`,
which is not part of the excerpted sources).  Section 4.3 describes it as a
backend-specific lookup table from status string to generic state; the
entries cover the BigQuery job status domain (PENDING / RUNNING / DONE)
together with the generic terminal names the spec's scenarios use. -/
def flyteStateTable : List (String × AgentState) :=
  [("PENDING", .QUEUED), ("RUNNING", .RUNNING), ("DONE", .SUCCEEDED),
   ("SUCCEEDED", .SUCCEEDED), ("FAILED", .FAILED)]

/-- Modelled from the spec: the State Translator function — table lookup with
the default-to-RUNNING fallback for any unrecognized status (section 4.3,
"unknown means keep polling"). -/
def convert_to_flyte_state (s : String) : AgentState :=
  match flyteStateTable.lookup s with
  | some st => st
  | none => .RUNNING

/-- The closed set of Python runtime types relevant to the agent: the seven
keys of `pythonTypeToBigQueryType` plus representatives of types outside the
mapping (what `TypeEngine.guess_python_type` may produce for other literal
types). -/
inductive PyType
  | pyList
  | pyBool
  | pyBytes
  | pyDatetime
  | pyFloat
  | pyInt
  | pyStr
  | pyDict
  | other (name : String)
deriving DecidableEq

/-- The module-level dict `pythonTypeToBigQueryType` of agent.py (lines
19-28); `none` models a key miss (Python's KeyError on subscript). -/
def pythonTypeToBigQueryType : PyType → Option String
  | .pyList => some ("ARRAY")
  | .pyBool => some ("BOOL")
  | .pyBytes => some ("BYTES")
  | .pyDatetime => some ("DATETIME")
  | .pyFloat => some ("FLOAT64")
  | .pyInt => some ("INT64")
  | .pyStr => some ("STRING")
  | _ => none

/-- One `bigquery.ScalarQueryParameter(name, type_, val)`; the runtime value
itself plays no role in the excerpt's control flow and is not carried. -/
structure ScalarQueryParameter where
  name : String
  type_ : String
deriving DecidableEq

/-- The query-parameter list comprehension of `create` (lines 57-60): one
parameter per input, looking each guessed Python type up in
`pythonTypeToBigQueryType`; a single missing key aborts the whole
comprehension (KeyError), modelled by `none`. -/
def buildQueryParams : List (String × PyType) → Option (List ScalarQueryParameter)
  | [] => some []
  | (n, t) :: rest =>
    match pythonTypeToBigQueryType t with
    | none => none
    | some bq =>
      match buildQueryParams rest with
      | none => none
      | some ps => some (⟨n, bq⟩ :: ps)

/-- The errors the excerpted operations can raise, under the names the spec's
error taxonomy gives them.  `attributeErrorNoneType` is the Python
AttributeError raised by evaluating `res.to_flyte_idl()` when `res` is None. -/
inductive AgentError
  | malformedMetadata
  | notFound
  | unsupportedType
  | attributeErrorNoneType
deriving DecidableEq

/-- A backend-side BigQuery job record: its reported status string and the
destination table coordinates `get` reads on success. -/
structure BackendJob where
  state : String
  destProject : String
  destDataset : String
  destTable : String
deriving DecidableEq

/-- The external BigQuery service, as the association from job id (UTF-8
bytes) to job record that `client.get_job` / `client.cancel_job` consult. -/
abbrev Backend := List (List Nat × BackendJob)

/-- The observable backend interactions of `create`. -/
inductive BackendCall
  | clientInit (project location : String)
  | query (statement : String)
deriving DecidableEq

/-- `CreateTaskResponse(resource_meta=...)`. -/
structure CreateTaskResponse where
  resource_meta : List Nat
deriving DecidableEq

/-- `BigQueryAgent.create` (lines 40-67).  `inputs` carries, per input name,
the Python type guessed from the template interface; `backendJobId` is the
job id the backend assigns to the submitted query (`query_job.job_id`).  The
returned trace lists the backend interactions in order: none happen when the
query-parameter comprehension raises KeyError on an unmapped type. -/
def create (projectID location sql : String) (inputs : Option (List (String × PyType)))
    (backendJobId : List Nat) : List BackendCall × Except AgentError CreateTaskResponse :=
  match inputs with
  | none =>
    ([.clientInit projectID location, .query sql], .ok ⟨packbMetadata backendJobId⟩)
  | some ins =>
    match buildQueryParams ins with
    | none => ([], .error .unsupportedType)
    | some _params =>
      ([.clientInit projectID location, .query sql], .ok ⟨packbMetadata backendJobId⟩)

/-- The generic tagged value `TypeEngine.to_literal(ctx, StructuredDataset(uri=...), ...)`
produces.  Modelled from the spec: the Type Bridge's result-reference
conversion "need not materialize the data itself, only wrap a reference"
(section 4.4); `TypeEngine.to_literal` is not part of the excerpted sources. -/
inductive Literal
  | structuredDataset (uri : String)
deriving DecidableEq

/-- `Resource(state=..., outputs=...)` of the get response. -/
structure Resource where
  state : AgentState
  outputs : Option (List (String × Literal))
deriving DecidableEq

/-- `GetTaskResponse(resource=...)`. -/
structure GetTaskResponse where
  resource : Resource
deriving DecidableEq

/-- `client.get_job(job_id)` / `client.cancel_job(job_id)`: a backend job is
identified by its job id string; an id of any other runtime type — possible,
since the dataclass does not validate its field — matches no job and the
client call fails.  That failure is carried here as the not-found error; the
point the claims need is only that it is neither a metadata decode error nor
a returned state. -/
def backendLookup (backend : Backend) : PyVal → Option BackendJob
  | .pyStr s => backend.lookup s
  | _ => none

/-- Discriminate the malformed-metadata failure among `get` outcomes. -/
def isMalformedError : Except AgentError GetTaskResponse → Bool
  | .error .malformedMetadata => true
  | _ => false

/-- `BigQueryAgent.get` (lines 69-90).  Decode the token with msgpack, look
the job up at the backend (`client.get_job` raises NotFound when the backend
has no record), translate its status, and build the `results` literal map
only in the SUCCEEDED branch.  Line 90 then evaluates `res.to_flyte_idl()`
unconditionally, which on `res = None` raises AttributeError — modelled by
the final match. -/
def get (backend : Backend) (resource_meta : List Nat) : Except AgentError GetTaskResponse :=
  match unpackbMetadata resource_meta with
  | none => .error .malformedMetadata
  | some metadata =>
    match backendLookup backend metadata.job_id with
    | none => .error .notFound
    | some job =>
      let cur_state := convert_to_flyte_state job.state
      let res : Option (List (String × Literal)) :=
        if cur_state = .SUCCEEDED then
          some [("results", .structuredDataset
            ("bq://" ++ job.destProject ++ ":" ++ job.destDataset ++ "." ++ job.destTable))]
        else none
      match res with
      | none => .error .attributeErrorNoneType
      | some r => .ok ⟨⟨cur_state, some r⟩⟩

/-- Strip JSON inter-token whitespace (space, tab, newline, carriage
return), as `json.loads` does. -/
def skipWs : List Nat → List Nat
  | 32 :: rest => skipWs rest
  | 9 :: rest => skipWs rest
  | 10 :: rest => skipWs rest
  | 13 :: rest => skipWs rest
  | l => l

/-- Resolve a JSON single-character escape to the byte it denotes. -/
def jsonEscapeChar (e : Nat) : Option Nat :=
  if e = 34 then some 34
  else if e = 92 then some 92
  else if e = 47 then some 47
  else if e = 98 then some 8
  else if e = 102 then some 12
  else if e = 110 then some 10
  else if e = 114 then some 13
  else if e = 116 then some 9
  else none

/-- Value of a hexadecimal digit character. -/
def hexDigit (b : Nat) : Option Nat :=
  if 48 ≤ b ∧ b ≤ 57 then some (b - 48)
  else if 65 ≤ b ∧ b ≤ 70 then some (b - 55)
  else if 97 ≤ b ∧ b ≤ 102 then some (b - 87)
  else none

/-- UTF-8 encoding of a unicode code point (used for `\uXXXX` escapes). -/
def utf8EncodeCp (cp : Nat) : List Nat :=
  if cp ≤ 0x7f then [cp]
  else if cp ≤ 0x7ff then [0xc0 + cp / 64, 0x80 + cp % 64]
  else if cp ≤ 0xffff then [0xe0 + cp / 4096, 0x80 + cp / 64 % 64, 0x80 + cp % 64]
  else [0xf0 + cp / 262144, 0x80 + cp / 4096 % 64, 0x80 + cp / 64 % 64, 0x80 + cp % 64]

/-- Consume a JSON string body up to its closing quote, yielding the decoded
content bytes and the remaining input.  Handles the single-character escapes
and `\uXXXX`, including surrogate pairs; raw control characters are invalid.
A string containing an unpaired surrogate escape, which Python tolerates as a
lone-surrogate str, has no UTF-8 byte form — the carrier of strings here —
and lies outside the model (it could never equal a backend job id either
way). -/
def parseJsonStringBody : List Nat → Option (List Nat × List Nat)
  | [] => none
  | 34 :: rest => some ([], rest)
  | 92 :: 117 :: h1 :: h2 :: h3 :: h4 :: rest =>
    match hexDigit h1, hexDigit h2, hexDigit h3, hexDigit h4 with
    | some d1, some d2, some d3, some d4 =>
      let cp := ((d1 * 16 + d2) * 16 + d3) * 16 + d4
      if 0xd800 ≤ cp ∧ cp ≤ 0xdbff then
        match rest with
        | 92 :: 117 :: g1 :: g2 :: g3 :: g4 :: rest2 =>
          match hexDigit g1, hexDigit g2, hexDigit g3, hexDigit g4 with
          | some e1, some e2, some e3, some e4 =>
            let lo := ((e1 * 16 + e2) * 16 + e3) * 16 + e4
            if 0xdc00 ≤ lo ∧ lo ≤ 0xdfff then
              match parseJsonStringBody rest2 with
              | none => none
              | some (s, r) =>
                some (utf8EncodeCp (0x10000 + (cp - 0xd800) * 1024 + (lo - 0xdc00)) ++ s, r)
            else none
          | _, _, _, _ => none
        | _ => none
      else if 0xdc00 ≤ cp ∧ cp ≤ 0xdfff then none
      else
        match parseJsonStringBody rest with
        | none => none
        | some (s, r) => some (utf8EncodeCp cp ++ s, r)
    | _, _, _, _ => none
  | 92 :: e :: rest =>
    match jsonEscapeChar e with
    | none => none
    | some c =>
      match parseJsonStringBody rest with
      | none => none
      | some (s, r) => some (c :: s, r)
  | b :: rest =>
    if b < 32 then none
    else
      match parseJsonStringBody rest with
      | none => none
      | some (s, r) => some (b :: s, r)

/-- Longest leading run of decimal digit characters. -/
def takeDigits : List Nat → List Nat × List Nat
  | b :: rest =>
    if 48 ≤ b ∧ b ≤ 57 then
      let (ds, r) := takeDigits rest
      (b :: ds, r)
    else ([], b :: rest)
  | [] => ([], [])

/-- Numeric value of a run of decimal digit characters. -/
def digitsToNat (ds : List Nat) : Nat := ds.foldl (fun acc d => acc * 10 + (d - 48)) 0

/-- Optional fraction part of a JSON number: a dot followed by at least one
digit; returns the consumed characters. -/
def recognizeFrac (bs : List Nat) : Option (List Nat × List Nat) :=
  match bs with
  | 46 :: r =>
    match takeDigits r with
    | ([], _) => none
    | (fs, r2) => some (46 :: fs, r2)
  | _ => some ([], bs)

/-- Exponent digits, after the `e`/`E` marker and an optional sign. -/
def recognizeExpTail (tok : List Nat) (bs : List Nat) : Option (List Nat × List Nat) :=
  match takeDigits bs with
  | ([], _) => none
  | (ds, r2) => some (tok ++ ds, r2)

/-- Optional exponent part of a JSON number. -/
def recognizeExp (bs : List Nat) : Option (List Nat × List Nat) :=
  match bs with
  | 101 :: 43 :: r => recognizeExpTail [101, 43] r
  | 101 :: 45 :: r => recognizeExpTail [101, 45] r
  | 101 :: r => recognizeExpTail [101] r
  | 69 :: 43 :: r => recognizeExpTail [69, 43] r
  | 69 :: 45 :: r => recognizeExpTail [69, 45] r
  | 69 :: r => recognizeExpTail [69] r
  | _ => some ([], bs)

/-- A JSON number without its optional leading minus: an integer part with no
leading zero, then optional fraction and exponent; returns the token's
characters. -/
def recognizeNumberTail (bs : List Nat) : Option (List Nat × List Nat) :=
  match takeDigits bs with
  | ([], _) => none
  | (d :: ds, r1) =>
    if d = 48 ∧ ds ≠ [] then none
    else
      match recognizeFrac r1 with
      | none => none
      | some (ftok, r2) =>
        match recognizeExp r2 with
        | none => none
        | some (etok, r3) => some ((d :: ds) ++ ftok ++ etok, r3)

/-- A JSON number token, sign included. -/
def recognizeNumber (bs : List Nat) : Option (List Nat × List Nat) :=
  match bs with
  | 45 :: r0 =>
    match recognizeNumberTail r0 with
    | none => none
    | some (tok, rest) => some (45 :: tok, rest)
  | r0 => recognizeNumberTail r0

/-- A JSON number as the Python value `json.loads` produces: an `int` when
the token is a bare (possibly signed) integer, a `float` when a fraction or
exponent is present (the float carried by its token text). -/
def parseJsonNumber (bs : List Nat) : Option (PyVal × List Nat) :=
  match recognizeNumber bs with
  | none => none
  | some (tok, rest) =>
    if tok.contains 46 ∨ tok.contains 101 ∨ tok.contains 69 then
      some (.pyFloat tok, rest)
    else
      match tok with
      | 45 :: ds => some (.pyInt (-(Int.ofNat (digitsToNat ds))), rest)
      | ds => some (.pyInt (Int.ofNat (digitsToNat ds)), rest)

mutual

/-- One JSON value per `json.loads`'s grammar (including the non-standard
`NaN` / `Infinity` / `-Infinity` it accepts by default), decoded into the
Python value it produces.  As with the msgpack parser, `fuel` only bounds the
recursion depth and the budget `jsonLoadsMetadata` supplies cannot run out
before the input does. -/
def parseJsonVal : Nat → List Nat → Option (PyVal × List Nat)
  | 0, _ => none
  | fuel + 1, bs =>
    match skipWs bs with
    | 123 :: r =>
      match parseJsonMembers fuel true r with
      | none => none
      | some (es, r2) => some (.pyDict es, r2)
    | 91 :: r =>
      match parseJsonItems fuel true r with
      | none => none
      | some (vs, r2) => some (.pyList vs, r2)
    | 34 :: r =>
      match parseJsonStringBody r with
      | none => none
      | some (s, r2) => some (.pyStr s, r2)
    | 116 :: 114 :: 117 :: 101 :: r => some (.pyBool true, r)
    | 102 :: 97 :: 108 :: 115 :: 101 :: r => some (.pyBool false, r)
    | 110 :: 117 :: 108 :: 108 :: r => some (.pyNone, r)
    | 78 :: 97 :: 78 :: r => some (.pyFloat [78, 97, 78], r)
    | 73 :: 110 :: 102 :: 105 :: 110 :: 105 :: 116 :: 121 :: r =>
      some (.pyFloat [73, 110, 102, 105, 110, 105, 116, 121], r)
    | 45 :: 73 :: 110 :: 102 :: 105 :: 110 :: 105 :: 116 :: 121 :: r =>
      some (.pyFloat [45, 73, 110, 102, 105, 110, 105, 116, 121], r)
    | other => parseJsonNumber other

/-- The members of a JSON object, after its opening brace (`first` true) or
after a separating comma (`first` false, where a closing brace would be a
trailing comma and is invalid). -/
def parseJsonMembers : Nat → Bool → List Nat → Option (List (PyVal × PyVal) × List Nat)
  | 0, _, _ => none
  | fuel + 1, first, bs =>
    match skipWs bs with
    | 125 :: r => if first then some ([], r) else none
    | 34 :: r =>
      match parseJsonStringBody r with
      | none => none
      | some (k, r2) =>
        match skipWs r2 with
        | 58 :: r3 =>
          match parseJsonVal fuel r3 with
          | none => none
          | some (v, r4) =>
            match skipWs r4 with
            | 44 :: r5 =>
              match parseJsonMembers fuel false r5 with
              | none => none
              | some (es, r6) => some ((.pyStr k, v) :: es, r6)
            | 125 :: r5 => some ([(.pyStr k, v)], r5)
            | _ => none
        | _ => none
    | _ => none

/-- The items of a JSON array, after its opening bracket or a comma. -/
def parseJsonItems : Nat → Bool → List Nat → Option (List PyVal × List Nat)
  | 0, _, _ => none
  | fuel + 1, first, bs =>
    match skipWs bs with
    | 93 :: r => if first then some ([], r) else none
    | other =>
      match parseJsonVal fuel other with
      | none => none
      | some (v, r2) =>
        match skipWs r2 with
        | 44 :: r3 =>
          match parseJsonItems fuel false r3 with
          | none => none
          | some (vs, r4) => some (v :: vs, r4)
        | 93 :: r3 => some ([v], r3)
        | _ => none

end

/-- `Metadata(**json.loads(resource_meta.decode("utf-8")))` from `delete`
(line 94): strict UTF-8 decoding, one JSON document (trailing whitespace
only), then the same dataclass keyword expansion as the msgpack path — in
particular any JSON value under the single "job_id" key is accepted, the
field's annotation being unenforced. -/
def jsonLoadsMetadata (bs : List Nat) : Option Metadata :=
  match utf8Decode bs with
  | none => none
  | some _ =>
    match parseJsonVal (2 * bs.length + 2) bs with
    | none => none
    | some (v, rest) => if skipWs rest = [] then metadataFromKwargs v else none

/-- The observable backend interaction of `delete`. -/
inductive DeleteCall
  | cancelJob (job_id : PyVal)

/-- `BigQueryAgent.delete` (lines 92-96): decode the token with
`json.loads(resource_meta.decode("utf-8"))`, then request cancellation of the
embedded job (`client.cancel_job` fails for an id matching no job).  The
trace records which job id cancellation was requested for. -/
def delete (backend : Backend) (resource_meta : List Nat) :
    List DeleteCall × Except AgentError Unit :=
  match jsonLoadsMetadata resource_meta with
  | none => ([], .error .malformedMetadata)
  | some metadata =>
    match backendLookup backend metadata.job_id with
    | none => ([], .error .notFound)
    | some _ => ([.cancelJob metadata.job_id], .ok ())

end BigQueryAgent

namespace Build

/-- Length of the longest common leading run of path components, as
`os.path.relpath` computes it to align the target path with the start
directory. -/
def commonPrefixLen : List String → List String → Nat
  | a :: as, b :: bs => if a = b then commonPrefixLen as bs + 1 else 0
  | _, _ => 0

/-- `os.path.relpath(path, cwd)` over absolute, normalized paths represented
as their component lists (which `pathlib.Path(...).resolve()` guarantees for
`self._filename`): one ".." per start component beyond the common run,
followed by the target's remaining components; "." when nothing remains. -/
def relpathComponents (path start : List String) : List String :=
  let i := commonPrefixLen path start
  match List.replicate (start.length - i) ".." ++ path.drop i with
  | [] => ["."]
  | l => l

/-- Join path components with the POSIX separator, as `str()` of a relative
path renders them. -/
def joinSlash : List String → String
  | [] => ""
  | [c] => c
  | c :: rest => c ++ "/" ++ joinSlash rest

/-- Python's `str.startswith`: the first characters of `s` spell `pat`. -/
def pyStartsWith (s pat : String) : Bool :=
  s.data.take pat.data.length == pat.data

/-- `os.path.splitext(..)[0]` on one component: drop the last dot and what
follows it, when a dot is present. -/
def stemChars (cs : List Char) : List Char :=
  match cs.reverse.dropWhile (fun c => c ≠ '.') with
  | [] => cs
  | _ :: restRev => restRev.reverse

/-- Apply `stemChars` to the final component of a relative path. -/
def applyStemLast : List String → List String
  | [] => []
  | [c] => [String.mk (stemChars c.data)]
  | c :: rest => c :: applyStemLast rest

/-- Join components with "." — the `replace(os.path.sep, ".")` step that
turns a relative file path into a dotted module name. -/
def joinDots : List String → String
  | [] => ""
  | [c] => c
  | c :: rest => c ++ "." ++ joinDots rest

/-- The click-context mutations and entity loading `get_command` performs
after its path check, in source order. -/
inductive BuildEffect
  | setProjectRoot (root : List String)
  | setModule (module : String)
  | loadEntity (module exe : String)
deriving DecidableEq

/-- The ValueError exits of `WorkflowCommand.get_command`: the explicit
raise for a file outside the working directory (lines 109-112), and the one
`PurePath.relative_to` raises when the project root is not a prefix of the
filename. -/
inductive BuildError
  | valueErrorNotUnderCwd
  | valueErrorNotRelative
deriving DecidableEq

/-- The `click.Command` value `get_command` returns. -/
structure BuildCmd where
  name : String
  helpText : String
deriving DecidableEq

/-- `WorkflowCommand.get_command` (lines 98-128).  `findRoot` stands for the
external `_find_project_root`; `cwd` and `filename` are absolute component
lists (`filename` resolved at construction).  The effect trace records, in
order, the `ctx.obj` mutations and the `load_naive_entity` call; the
out-of-tree check precedes them all. -/
def get_command (findRoot : List String → List String) (cwd filename : List String)
    (exe_entity : String) : List BuildEffect × Except BuildError BuildCmd :=
  let rel_path := relpathComponents filename cwd
  if pyStartsWith (joinSlash rel_path) ".." then ([], .error .valueErrorNotUnderCwd)
  else
    let project_root := findRoot filename
    if project_root.isPrefixOf filename then
      let relp := filename.drop project_root.length
      let module := joinDots (applyStemLast relp)
      ([.setProjectRoot project_root, .setModule module, .loadEntity module exe_entity],
       .ok ⟨exe_entity, "Build an image for " ++ module ++ "." ++ exe_entity ++ "."⟩)
    else ([], .error .valueErrorNotRelative)

/-- `fnmatch` of the glob pattern "*.py": the name ends with the literal
suffix ".py" (pathlib's glob imposes no special treatment of leading dots). -/
def fnmatchStarDotPy (name : String) : Bool :=
  3 ≤ name.data.length && name.data.drop (name.data.length - 3) == ['.', 'p', 'y']

/-- `BuildCommand.list_commands` (lines 140-141): the comprehension
`[str(p) for p in pathlib.Path(".").glob("*.py") if str(p) != "__init__.py"]`
over the names of the direct entries of the current directory. -/
def list_commands (entries : List String) : List String :=
  (entries.filter fnmatchStarDotPy).filter (fun p => p != "__init__.py")

end Build

namespace BigQueryAgent

theorem take_length_append (s t : List Nat) : (s ++ t).take s.length = s := by
  induction s with
  | nil => simp
  | cons a s ih => simp [ih]

theorem drop_length_append (s t : List Nat) : (s ++ t).drop s.length = t := by
  induction s with
  | nil => simp
  | cons a s ih => simp [ih]

theorem readN_append (s t : List Nat) : readN s.length (s ++ t) = some (s, t) := by
  unfold readN
  rw [if_pos (by simp), take_length_append, drop_length_append]

theorem parseMsgStr_append (s t : List Nat) (hv : validUtf8 s = true) :
    parseMsgStr s.length (s ++ t) = some (.pyStr s, t) := by
  unfold parseMsgStr
  rw [readN_append]
  simp [hv]

theorem parseMsgOne_packStr (f : Nat) (s t : List Nat) (hlen : s.length < 4294967296)
    (hv : validUtf8 s = true) :
    parseMsgOne (f + 1) (packStr s ++ t) = some (.pyStr s, t) := by
  unfold packStr
  by_cases h1 : s.length ≤ 31
  · rw [if_pos h1]
    show parseMsgOne (f + 1) ((0xa0 + s.length) :: (s ++ t)) = some (.pyStr s, t)
    simp only [parseMsgOne]
    rw [if_pos ⟨by omega, by omega⟩]
    have he : 0xa0 + s.length - 0xa0 = s.length := by omega
    rw [he, parseMsgStr_append s t hv]
  · rw [if_neg h1]
    by_cases h2 : s.length < 256
    · rw [if_pos h2]
      show parseMsgOne (f + 1) (0xd9 :: s.length :: (s ++ t)) = some (.pyStr s, t)
      simp only [parseMsgOne]
      rw [if_pos trivial]
      exact parseMsgStr_append s t hv
    · rw [if_neg h2]
      by_cases h3 : s.length < 65536
      · rw [if_pos h3]
        show parseMsgOne (f + 1)
          (0xda :: (s.length / 256) :: (s.length % 256) :: (s ++ t)) = some (.pyStr s, t)
        simp only [parseMsgOne]
        rw [if_pos trivial]
        have he : s.length / 256 * 256 + s.length % 256 = s.length := by omega
        rw [he]
        exact parseMsgStr_append s t hv
      · rw [if_neg h3]
        show parseMsgOne (f + 1) (0xdb :: (s.length / 16777216) :: (s.length / 65536 % 256) ::
          (s.length / 256 % 256) :: (s.length % 256) :: (s ++ t)) = some (.pyStr s, t)
        simp only [parseMsgOne]
        rw [if_pos trivial]
        have he : ((s.length / 16777216 * 256 + s.length / 65536 % 256) * 256 +
            s.length / 256 % 256) * 256 + s.length % 256 = s.length := by omega
        rw [he]
        exact parseMsgStr_append s t hv

theorem parseMsgOne_packStr_nil (f : Nat) (s : List Nat) (hlen : s.length < 4294967296)
    (hv : validUtf8 s = true) :
    parseMsgOne (f + 1) (packStr s) = some (.pyStr s, []) := by
  have h := parseMsgOne_packStr f s [] hlen hv
  rwa [List.append_nil] at h

theorem parseMsgSeq_one (f : Nat) (s : List Nat) (hlen : s.length < 4294967296)
    (hv : validUtf8 s = true) :
    parseMsgSeq (f + 2) 1 (packStr s) = some ([.pyStr s], []) := by
  show (match parseMsgOne (f + 1) (packStr s) with
    | none => none
    | some (v, r) =>
      match parseMsgSeq (f + 1) 0 r with
      | none => none
      | some (vs, r2) => some (v :: vs, r2)) = some ([PyVal.pyStr s], [])
  rw [parseMsgOne_packStr_nil f s hlen hv]
  rfl

theorem parseMsgSeq_metadata (f : Nat) (jid : List Nat) (hlen : jid.length < 4294967296)
    (hv : validUtf8 jid = true) :
    parseMsgSeq (f + 3) 2 (packStr jobIdKeyBytes ++ packStr jid) =
      some ([.pyStr jobIdKeyBytes, .pyStr jid], []) := by
  have h1 : parseMsgOne (f + 2) (packStr jobIdKeyBytes ++ packStr jid) =
      some (.pyStr jobIdKeyBytes, packStr jid) := by
    rw [show f + 2 = (f + 1) + 1 from rfl]
    exact parseMsgOne_packStr (f + 1) jobIdKeyBytes (packStr jid) (by decide) (by decide)
  show (match parseMsgOne (f + 2) (packStr jobIdKeyBytes ++ packStr jid) with
    | none => none
    | some (v, r) =>
      match parseMsgSeq (f + 2) 1 r with
      | none => none
      | some (vs, r2) => some (v :: vs, r2)) =
    some ([PyVal.pyStr jobIdKeyBytes, PyVal.pyStr jid], [])
  rw [h1]
  show (match parseMsgSeq (f + 2) 1 (packStr jid) with
    | none => none
    | some (vs, r2) => some (PyVal.pyStr jobIdKeyBytes :: vs, r2)) =
    some ([PyVal.pyStr jobIdKeyBytes, PyVal.pyStr jid], [])
  rw [parseMsgSeq_one f jid hlen hv]

theorem parseMsgOne_packbMetadata (f : Nat) (jid : List Nat)
    (hlen : jid.length < 4294967296) (hv : validUtf8 jid = true) :
    parseMsgOne (f + 4) (packbMetadata jid) =
      some (.pyDict [(.pyStr jobIdKeyBytes, .pyStr jid)], []) := by
  show (match parseMsgSeq (f + 3) (2 * (0x81 - 0x80)) (packStr jobIdKeyBytes ++ packStr jid) with
    | none => none
    | some (kvs, r) =>
      match toPairs kvs with
      | none => none
      | some es => if es.all strictMapKey then some (PyVal.pyDict es, r) else none) =
    some (PyVal.pyDict [(PyVal.pyStr jobIdKeyBytes, PyVal.pyStr jid)], [])
  rw [show (2 * (0x81 - 0x80) : Nat) = 2 from rfl, parseMsgSeq_metadata f jid hlen hv]
  rfl

theorem unpackb_packb (jid : List Nat) (hlen : jid.length < 4294967296)
    (hv : validUtf8 jid = true) :
    unpackb (packbMetadata jid) = some (.pyDict [(.pyStr jobIdKeyBytes, .pyStr jid)]) := by
  unfold unpackb
  have hL : (packbMetadata jid).length = (packStr jobIdKeyBytes ++ packStr jid).length + 1 := rfl
  rw [show 2 * (packbMetadata jid).length + 2 =
    (2 * (packbMetadata jid).length - 2) + 4 from by omega]
  rw [parseMsgOne_packbMetadata (2 * (packbMetadata jid).length - 2) jid hlen hv]

theorem unpackbMetadata_packb (jid : List Nat) (hlen : jid.length < 4294967296)
    (hv : validUtf8 jid = true) :
    unpackbMetadata (packbMetadata jid) = some ⟨.pyStr jid⟩ := by
  unfold unpackbMetadata
  rw [unpackb_packb jid hlen hv]
  rfl

theorem buildQueryParams_none (ins : List (String × PyType)) (n : String) (t : PyType)
    (hmem : (n, t) ∈ ins) (hnone : pythonTypeToBigQueryType t = none) :
    buildQueryParams ins = none := by
  induction ins with
  | nil => cases hmem
  | cons p rest ih =>
    obtain ⟨pn, pt⟩ := p
    rcases List.mem_cons.mp hmem with heq | hmem2
    · cases heq
      simp [buildQueryParams, hnone]
    · have hr := ih hmem2
      cases hpt : pythonTypeToBigQueryType pt <;> simp [buildQueryParams, hpt, hr]

/-- C1 (code bug in delete's codec): `create` encodes ResourceMetadata with
`msgpack.packb`, and `get` decodes that token successfully, but `delete`
decodes with `json.loads(resource_meta.decode("utf-8"))`; the msgpack token
begins with the fixmap byte 0x81, which is invalid UTF-8, so `delete` on the
very token `create` returned fails before any cancellation is requested,
instead of cancelling the embedded job. -/
theorem delete_rejects_token_that_get_accepts :
    get [([106, 111, 98, 45, 49], ⟨"DONE", "proj", "ds", "tbl"⟩)]
      (packbMetadata [106, 111, 98, 45, 49]) =
      .ok ⟨⟨.SUCCEEDED, some [("results", .structuredDataset ("bq://proj:ds.tbl"))]⟩⟩ ∧
    delete [([106, 111, 98, 45, 49], ⟨"DONE", "proj", "ds", "tbl"⟩)]
      (packbMetadata [106, 111, 98, 45, 49]) = ([], .error .malformedMetadata) :=
  ⟨rfl, rfl⟩

/-- C2 (code bug): for a well-formed token whose backend status translates to
RUNNING, `get` does not return RUNNING with the outputs field absent — line
90 evaluates `res.to_flyte_idl()` with `res = None`, raising AttributeError. -/
theorem get_running_state_raises_attribute_error :
    convert_to_flyte_state ("RUNNING") = .RUNNING ∧
    get [([106, 49], ⟨"RUNNING", "proj", "ds", "tbl"⟩)] (packbMetadata [106, 49]) =
      .error .attributeErrorNoneType :=
  ⟨rfl, rfl⟩

/-- C3: the metadata codec round-trips — decoding the msgpack encoding of any
valid Metadata record (one carrying the external job identifier string, of
msgpack-encodable length and valid UTF-8) yields the record itself, so `get`
recovers exactly the job id `create` stored. -/
theorem metadata_codec_roundtrip (jid : List Nat) (hlen : jid.length < 4294967296)
    (hv : validUtf8 jid = true) :
    unpackbMetadata (packbMetadata jid) = some ⟨.pyStr jid⟩ :=
  unpackbMetadata_packb jid hlen hv

theorem metadata_codec_roundtrip_witness :
    (([106, 111, 98, 45, 49] : List Nat).length < 4294967296 ∧
      validUtf8 [106, 111, 98, 45, 49] = true) ∧
    unpackbMetadata (packbMetadata [106, 111, 98, 45, 49]) =
      some ⟨.pyStr [106, 111, 98, 45, 49]⟩ :=
  ⟨⟨by decide, by decide⟩,
    metadata_codec_roundtrip [106, 111, 98, 45, 49] (by decide) (by decide)⟩

/-- C4 (code bug): an unrecognized backend status does translate to RUNNING
(the spec-modelled fallback), but `get` then does not return normally — with
the state non-terminal, `res` stays None and line 90's `res.to_flyte_idl()`
raises AttributeError instead of producing a RUNNING response. -/
theorem get_unknown_status_translates_to_running_but_raises :
    convert_to_flyte_state ("UNKNOWN_EXOTIC") = .RUNNING ∧
    get [([106, 50], ⟨"UNKNOWN_EXOTIC", "proj", "ds", "tbl"⟩)] (packbMetadata [106, 50]) =
      .error .attributeErrorNoneType :=
  ⟨rfl, rfl⟩

/-- C5 (counterexample): the claim as stated fails — the byte string encoding
the msgpack map pairing "job_id" with the integer 42 is not a well-formed
encoding of a Metadata record (whose job identifier is a string), yet `get`
does not fail with the malformed-metadata error: the unvalidated dataclass
accepts the integer and `get` proceeds to the backend client, failing there
with the not-found error instead. -/
theorem get_malformed_metadata_counterexample :
    unpackbMetadata [129, 166, 106, 111, 98, 95, 105, 100, 42] = some ⟨.pyInt 42⟩ ∧
    isMalformedError (get [] [129, 166, 106, 111, 98, 95, 105, 100, 42]) = false ∧
    get [] [129, 166, 106, 111, 98, 95, 105, 100, 42] = .error .notFound :=
  ⟨rfl, rfl, rfl⟩

/-- C5 (amended): whenever the decode step itself fails — msgpack cannot
parse the bytes, or the decoded value cannot be expanded into the Metadata
dataclass — `get` fails with the malformed-metadata error; no state, RUNNING,
QUEUED or otherwise, is returned.  (A map carrying a non-string value under
the single "job_id" key decodes successfully instead, per the
counterexample.) -/
theorem get_malformed_metadata_errors (backend : Backend) (bs : List Nat)
    (h : unpackbMetadata bs = none) :
    get backend bs = .error .malformedMetadata := by
  simp [get, h]

theorem get_malformed_metadata_errors_witness :
    unpackbMetadata [193] = none ∧
    get [] [193] = .error .malformedMetadata :=
  ⟨rfl, get_malformed_metadata_errors [] [193] rfl⟩

/-- C6: when some input's guessed Python type has no entry in
`pythonTypeToBigQueryType`, the query-parameter comprehension raises before
`bigquery.Client` is constructed or the query submitted: `create` fails with
the unsupported-type error and the backend-interaction trace is empty. -/
theorem create_unsupported_type_fail_fast (projectID location sql : String)
    (ins : List (String × PyType)) (n : String) (t : PyType) (jid : List Nat)
    (hmem : (n, t) ∈ ins) (hnone : pythonTypeToBigQueryType t = none) :
    create projectID location sql (some ins) jid = ([], .error .unsupportedType) := by
  simp [create, buildQueryParams_none ins n t hmem hnone]

theorem create_unsupported_type_fail_fast_witness :
    (("x", PyType.pyDict) ∈ [("x", PyType.pyDict)] ∧
      pythonTypeToBigQueryType PyType.pyDict = none) ∧
    create ("proj") ("loc") ("select 1") (some [("x", PyType.pyDict)]) [] =
      ([], .error .unsupportedType) :=
  ⟨⟨by decide, by decide⟩,
    create_unsupported_type_fail_fast ("proj") ("loc") ("select 1") [("x", PyType.pyDict)]
      ("x") PyType.pyDict [] (by decide) (by decide)⟩

/-- C7: when the token round-trips to a job whose status translates to
SUCCEEDED, `get` returns SUCCEEDED with outputs a literal map holding exactly
the key "results", wrapping the structured-dataset locator built from the
job's destination project, dataset and table. -/
theorem get_succeeded_returns_results (backend : Backend) (jid : List Nat) (job : BackendJob)
    (hlen : jid.length < 4294967296) (hv : validUtf8 jid = true)
    (hjob : backend.lookup jid = some job)
    (hstate : convert_to_flyte_state job.state = .SUCCEEDED) :
    get backend (packbMetadata jid) =
      .ok ⟨⟨.SUCCEEDED, some [("results", .structuredDataset
        ("bq://" ++ job.destProject ++ ":" ++ job.destDataset ++ "." ++ job.destTable))]⟩⟩ := by
  have h1 : unpackbMetadata (packbMetadata jid) = some ⟨.pyStr jid⟩ :=
    unpackbMetadata_packb jid hlen hv
  simp [get, h1, backendLookup, hjob, hstate]

theorem get_succeeded_returns_results_witness :
    (([106, 49] : List Nat).length < 4294967296 ∧ validUtf8 [106, 49] = true ∧
      List.lookup [106, 49] [([106, 49], (⟨"DONE", "proj", "ds", "tbl"⟩ : BackendJob))] =
        some ⟨"DONE", "proj", "ds", "tbl"⟩ ∧
      convert_to_flyte_state ("DONE") = .SUCCEEDED) ∧
    get [([106, 49], ⟨"DONE", "proj", "ds", "tbl"⟩)] (packbMetadata [106, 49]) =
      .ok ⟨⟨.SUCCEEDED, some [("results", .structuredDataset ("bq://proj:ds.tbl"))]⟩⟩ :=
  ⟨⟨by decide, by decide, by decide, by decide⟩,
    get_succeeded_returns_results [([106, 49], ⟨"DONE", "proj", "ds", "tbl"⟩)] [106, 49]
      ⟨"DONE", "proj", "ds", "tbl"⟩ (by decide) (by decide) (by decide) (by decide)⟩

/-- C8 (code bug): `get` is a pure function of the backend table and the
token, so with the backend fixed every repetition observes the same outcome —
but for a job fixed at status FAILED that outcome is the AttributeError from
line 90's `res.to_flyte_idl()` on None, not the FAILED state: a FAILED
terminal state can never be returned, let alone returned repeatedly. -/
theorem get_fixed_failed_status_never_returns_failed :
    convert_to_flyte_state ("FAILED") = .FAILED ∧
    get [([106, 51], ⟨"FAILED", "proj", "ds", "tbl"⟩)] (packbMetadata [106, 51]) =
      .error .attributeErrorNoneType :=
  ⟨rfl, rfl⟩

end BigQueryAgent

namespace Build

/-- C9: when the resolved filename's path relative to the working directory
starts with "..", `get_command` raises ValueError with an empty effect trace:
no click-context mutation and no entity loading has happened. -/
theorem get_command_rejects_file_outside_cwd (findRoot : List String → List String)
    (cwd filename : List String) (exe_entity : String)
    (h : pyStartsWith (joinSlash (relpathComponents filename cwd)) ".." = true) :
    get_command findRoot cwd filename exe_entity = ([], .error .valueErrorNotUnderCwd) := by
  simp [get_command, h]

theorem get_command_rejects_file_outside_cwd_witness :
    pyStartsWith (joinSlash (relpathComponents ["etc", "a.py"] ["home", "user"])) ".." = true ∧
    get_command id ["home", "user"] ["etc", "a.py"] ("wf") =
      ([], .error .valueErrorNotUnderCwd) :=
  ⟨by decide,
    get_command_rejects_file_outside_cwd id ["home", "user"] ["etc", "a.py"] ("wf") (by decide)⟩

/-- C10: `list_commands` lists exactly the direct entries of the current
directory whose name matches the glob pattern "*.py", except "__init__.py";
nothing else — in particular no file of any subdirectory, these not being
entries of the listing — appears. -/
theorem list_commands_exactly_py_files (entries : List String) (n : String) :
    n ∈ list_commands entries ↔
      n ∈ entries ∧ fnmatchStarDotPy n = true ∧ n ≠ "__init__.py" := by
  simp only [list_commands, List.mem_filter, bne_iff_ne, ne_eq]
  tauto

end Build
